import Mathlib

/-!
Shallow embedding of the OpenCL backend of ppcg (src/opencl.c) together with
theorems about its emission behaviour.

The isl objects that the backend only queries (never builds) are embedded by
the results of those queries: a union set is represented by the per-space
emptiness test the code performs on it plus the names of the parameter
dimensions of its space, a piecewise affine bound by the text the external
printer produces for it, and the positive size guard of an array by the
result of isl_set_plain_is_universe on it.  Emitted statements are
represented by structures holding exactly the variable pieces the code
prints into them.
-/

/-- Embedding of struct gpu_array_info as used by opencl.c: name, element
type, number of index dimensions, whether the array is only read in the
whole scop, the result of isl_set_plain_is_universe on the positive size
guard of the array, and the byte-size text printed by
gpu_array_info_print_size. -/
structure GpuArrayInfo where
  name : String
  type : String
  n_index : Nat
  read_only : Bool
  positive_size_guard_is_universe : Bool
  size : String
deriving DecidableEq, Repr

/-- Modelled from the spec: gpu_array_is_scalar (declared outside src): an
array with zero index dimensions is a scalar. -/
def gpu_array_is_scalar (a : GpuArrayInfo) : Bool :=
  a.n_index == 0

/-- Modelled from the spec: gpu_array_is_read_only_scalar (declared outside
src): a scalar that is never written; such arrays are passed by value and
never get a device buffer. -/
def gpu_array_is_read_only_scalar (a : GpuArrayInfo) : Bool :=
  gpu_array_is_scalar a && a.read_only

/-- Embedding of an isl_union_set as queried by opencl.c: for the space of
a named array, whether isl_union_set_extract_set yields a set on which
isl_set_plain_is_empty is false; and the names of the parameter dimensions
of the space returned by isl_union_set_get_space. -/
structure IslUnionSet where
  nonempty_on : String → Bool
  param_names : List String

/-- Embedding of the isl_ctx options read by opencl.c: the single
process-wide iterator type returned by isl_options_get_ast_iterator_type. -/
structure IslCtx where
  ast_iterator_type : String
deriving DecidableEq, Repr

/-- Embedding of struct gpu_prog as used by opencl.c: the ordered array
list, the whole-program read and write footprints (copy_in, copy_out) and
the parameter-constraint context set (kept opaque, only passed along). -/
structure GpuProg where
  ctx : IslCtx
  arrays : List GpuArrayInfo
  copy_in : IslUnionSet
  copy_out : IslUnionSet
  context : String

/-- Embedding of struct ppcg_kernel as used by opencl.c: kernel id, the
block size vector (n_block is its length), the grid size vector (each
component the printed text of its piecewise affine bound; the grid
dimension is its length), the union set of accessed array elements and
parameters, and the set-dimension names of the kernel space (the host loop
iterators). -/
structure PpcgKernel where
  id : Int
  block_dim : List Int
  grid_size : List String
  arrays : IslUnionSet
  space_set_dim_names : List String

/-- Identity of one kernel argument: which array, parameter or host
iterator it stands for. -/
inductive KernelArgId where
  | array (name : String)
  | param (name : String)
  | iterator (name : String)
deriving DecidableEq, Repr

/-- Underlying name of a kernel argument identity. -/
def KernelArgId.name : KernelArgId → String
  | .array n => n
  | .param n => n
  | .iterator n => n

/-- The arrays looped over by all three argument emission paths: the
program arrays, in program order, whose extracted set in the kernel
footprint (kernel->arrays) is not plainly empty (opencl.c:329-338,
opencl.c:387-396). -/
def kernel_accessed_arrays (prog : GpuProg) (kernel : PpcgKernel) : List GpuArrayInfo :=
  prog.arrays.filter (fun a => kernel.arrays.nonempty_on a.name)

/-- One emitted clSetKernelArg statement (opencl.c:271-294): kernel id,
argument identity, 0-based argument index, the read_only_scalar flag, and
the two printed argument pieces: the operand of sizeof and the value
expression passed as the argument pointer. -/
structure SetKernelArgStmt where
  kernel_id : Int
  arg : KernelArgId
  arg_index : Nat
  read_only_scalar : Bool
  sizeof_arg : String
  value_arg : String
deriving DecidableEq, Repr

/-- Embedding of opencl_set_kernel_argument (opencl.c:271-294): a read-only
scalar is bound by sizeof of the host variable and the address of the host
variable, everything else by sizeof(cl_mem) and the address of the device
buffer handle. -/
def opencl_set_kernel_argument (kid : Int) (arg : KernelArgId) (arg_index : Nat)
    (read_only_scalar : Bool) : SetKernelArgStmt :=
  { kernel_id := kid
    arg := arg
    arg_index := arg_index
    read_only_scalar := read_only_scalar
    sizeof_arg := if read_only_scalar then arg.name else "cl_mem"
    value_arg := if read_only_scalar then "&" ++ arg.name else "(void *) &dev_" ++ arg.name }

/-- The running arg_index counter of opencl_set_kernel_arguments: emit one
binding statement per pending argument, incrementing the counter. -/
def set_args_from (kid : Int) (k : Nat) : List (KernelArgId × Bool) → List SetKernelArgStmt
  | [] => []
  | x :: xs => opencl_set_kernel_argument kid x.1 k x.2 :: set_args_from kid (k + 1) xs

/-- Embedding of opencl_set_kernel_arguments (opencl.c:319-367): bind, with
a single 0-based running index, first the accessed arrays in program order
(read_only_scalar flag from the array), then the parameter dimensions of
the kernel footprint space (flag 1), then the set dimensions of the kernel
space (flag 1). -/
def opencl_set_kernel_arguments (prog : GpuProg) (kernel : PpcgKernel) :
    List SetKernelArgStmt :=
  set_args_from kernel.id 0
    ((kernel_accessed_arrays prog kernel).map
        (fun a => (KernelArgId.array a.name, gpu_array_is_read_only_scalar a))
      ++ kernel.arrays.param_names.map (fun n => (KernelArgId.param n, true))
      ++ kernel.space_set_dim_names.map (fun n => (KernelArgId.iterator n, true)))

/-- One argument as printed by opencl_print_kernel_arguments: an array
argument of a declaration (with its address space qualifier and element
type), an array argument of a call (with the printed expression), or a
parameter or iterator argument (with its printed type when types is set). -/
inductive PrintedKernelArg where
  | arrayDecl (qualifier : String) (elemType : String) (name : String)
  | arrayCall (name : String) (expr : String)
  | paramArg (typed : Option String) (name : String)
  | iterArg (typed : Option String) (name : String)
deriving DecidableEq, Repr

/-- Identity of a printed kernel argument. -/
def PrintedKernelArg.argId : PrintedKernelArg → KernelArgId
  | .arrayDecl _ _ n => .array n
  | .arrayCall n _ => .array n
  | .paramArg _ n => .param n
  | .iterArg _ n => .iterator n

/-- Modelled from the spec: gpu_array_info_print_declaration_argument
(gpu_print.c, not under src): a declaration argument carries the given
address space qualifier, the element type and the array name. -/
def gpu_array_info_print_declaration_argument (a : GpuArrayInfo) (qualifier : String) :
    PrintedKernelArg :=
  PrintedKernelArg.arrayDecl qualifier a.type a.name

/-- Modelled from the spec: gpu_array_info_print_call_argument (gpu_print.c,
not under src): an array argument of a call prints as the device buffer
variable, or as the host variable when the array is passed by value. -/
def gpu_array_info_print_call_argument (a : GpuArrayInfo) : PrintedKernelArg :=
  PrintedKernelArg.arrayCall a.name
    (if gpu_array_is_read_only_scalar a then a.name else "dev_" ++ a.name)

/-- Embedding of isl_options_get_ast_iterator_type. -/
def isl_options_get_ast_iterator_type (ctx : IslCtx) : String :=
  ctx.ast_iterator_type

/-- Embedding of opencl_print_kernel_arguments (opencl.c:377-447): the
accessed arrays in program order, then the parameters of the kernel
footprint space (typed as int in a declaration, opencl.c:421), then the
set dimensions of the kernel space (typed with the configured iterator
type in a declaration, opencl.c:429-439). -/
def opencl_print_kernel_arguments (prog : GpuProg) (kernel : PpcgKernel)
    (types : Bool) : List PrintedKernelArg :=
  (kernel_accessed_arrays prog kernel).map
      (fun a => if types then gpu_array_info_print_declaration_argument a "__global"
                else gpu_array_info_print_call_argument a)
    ++ kernel.arrays.param_names.map
        (fun n => PrintedKernelArg.paramArg (if types then some "int" else none) n)
    ++ kernel.space_set_dim_names.map
        (fun n => PrintedKernelArg.iterArg
          (if types then some (isl_options_get_ast_iterator_type prog.ctx) else none) n)

/-- Embedding of opencl_print_total_number_of_work_items_for_dim
(opencl.c:694-720): the text printed for dimension i. -/
def opencl_print_total_number_of_work_items_for_dim (kernel : PpcgKernel)
    (i : Nat) : String :=
  if i < min kernel.grid_size.length kernel.block_dim.length then
    "(" ++ kernel.grid_size.getD i "" ++ ") * " ++ toString (kernel.block_dim.getD i 0)
  else if kernel.grid_size.length ≤ i then
    toString (kernel.block_dim.getD i 0)
  else
    kernel.grid_size.getD i ""

/-- Embedding of opencl_print_total_number_of_work_items_as_list
(opencl.c:740-763): the comma separated list, one string per element. -/
def opencl_print_total_number_of_work_items_as_list (kernel : PpcgKernel) :
    List String :=
  if kernel.grid_size.length = 0 ∨ kernel.block_dim.length = 0 then ["1"]
  else
    (List.range (max kernel.grid_size.length kernel.block_dim.length)).map
      (opencl_print_total_number_of_work_items_for_dim kernel)

/-- Embedding of opencl_print_block_sizes (opencl.c:299-314): the block
sizes one per dimension, or the single literal 1 when n_block is 0. -/
def opencl_print_block_sizes (kernel : PpcgKernel) : List String :=
  if 0 < kernel.block_dim.length then kernel.block_dim.map toString
  else ["1"]

/-- The launch site block emitted by opencl_print_host_user
(opencl.c:787-883): declared lengths and initializer lists of the
global_work_size and block_size arrays, the created kernel object name,
the argument binding statements, and the work dimensionality passed to
clEnqueueNDRangeKernel. -/
structure LaunchBlock where
  global_work_size_len : Nat
  global_work_size_init : List String
  block_size_len : Nat
  block_size_init : List String
  kernel_name : String
  set_args : List SetKernelArgStmt
  work_dim : Nat

/-- Embedding of opencl_print_host_user (opencl.c:787-883): both arrays are
declared with length n_block when n_block is positive and 1 otherwise, the
same value is passed as the work dimensionality, global_work_size is
initialized with the total number of work items list and block_size with
the block sizes list. -/
def opencl_print_host_user (prog : GpuProg) (kernel : PpcgKernel) : LaunchBlock :=
  { global_work_size_len := if 0 < kernel.block_dim.length then kernel.block_dim.length else 1
    global_work_size_init := opencl_print_total_number_of_work_items_as_list kernel
    block_size_len := if 0 < kernel.block_dim.length then kernel.block_dim.length else 1
    block_size_init := opencl_print_block_sizes kernel
    kernel_name := "kernel" ++ toString kernel.id
    set_args := opencl_set_kernel_arguments prog kernel
    work_dim := if 0 < kernel.block_dim.length then kernel.block_dim.length else 1 }

/-- Embedding of is_array_positive_size_guard_trivial (opencl.c:169-178):
the guard returned by gpu_array_positive_size_guard is plainly the
universe. -/
def is_array_positive_size_guard_trivial (array : GpuArrayInfo) : Bool :=
  array.positive_size_guard_is_universe

/-- One emitted clCreateBuffer statement (opencl.c:186-233): array name,
memory flag list, the printed size argument and the printed host pointer
argument. -/
structure AllocStmt where
  array_name : String
  mem_flags : List String
  size_arg : String
  host_ptr_arg : String
deriving DecidableEq, Repr

/-- Embedding of allocate_device_array (opencl.c:186-233): flags are
CL_MEM_READ_WRITE, extended with CL_MEM_COPY_HOST_PTR when copy is set;
the size gets a sizeof lower bound when the positive size guard is not
trivial; the host pointer is NULL without copy, the address of the host
scalar for a scalar, and the host array base otherwise. -/
def allocate_device_array (array : GpuArrayInfo) (copy : Bool) : AllocStmt :=
  { array_name := array.name
    mem_flags :=
      if !copy then ["CL_MEM_READ_WRITE"]
      else ["CL_MEM_READ_WRITE", "CL_MEM_COPY_HOST_PTR"]
    size_arg :=
      if !is_array_positive_size_guard_trivial array then
        "max(sizeof(" ++ array.type ++ "), " ++ array.size ++ ")"
      else array.size
    host_ptr_arg :=
      if !copy then "NULL"
      else if gpu_array_is_scalar array then "&" ++ array.name
      else array.name }

/-- Embedding of opencl_allocate_device_arrays (opencl.c:237-261): skip
read-only scalars; copy the host contents exactly when the extracted set
of the array in copy_in is not plainly empty. -/
def opencl_allocate_device_arrays (prog : GpuProg) : List AllocStmt :=
  prog.arrays.filterMap (fun array =>
    if gpu_array_is_read_only_scalar array then none
    else some (allocate_device_array array (prog.copy_in.nonempty_on array.name)))

/-- The variable pieces of one clEnqueueReadBuffer statement
(opencl.c:905-927): array name, printed size, and the printed host
destination expression. -/
structure ReadBufferStmt where
  array_name : String
  size_arg : String
  host_arg : String
deriving DecidableEq, Repr

/-- Embedding of copy_array_from_device (opencl.c:905-927): scalars are
read back to the address of the host scalar, arrays to the host base. -/
def copy_array_from_device (array : GpuArrayInfo) : ReadBufferStmt :=
  { array_name := array.name
    size_arg := array.size
    host_arg := if gpu_array_is_scalar array then "&" ++ array.name else array.name }

/-- One emitted copy-back, possibly wrapped in a guard. -/
structure CopyBackStmt where
  array_name : String
  size_arg : String
  host_arg : String
  guarded : Bool
  guard_context : String
deriving DecidableEq, Repr

/-- Modelled from the spec: ppcg_print_guarded (ppcg.c, not under src):
prints the statement wrapped inside the given guard, simplified under the
given context; when the guard is plainly the universe the statement is
printed unguarded. -/
def ppcg_print_guarded (guard_is_universe : Bool) (context : String)
    (s : ReadBufferStmt) : CopyBackStmt :=
  { array_name := s.array_name
    size_arg := s.size_arg
    host_arg := s.host_arg
    guarded := !guard_is_universe
    guard_context := context }

/-- Embedding of opencl_copy_arrays_from_device (opencl.c:933-963): skip
arrays whose extracted set in copy_out is plainly empty; wrap the read of
every other array in its positive size guard under the program context. -/
def opencl_copy_arrays_from_device (prog : GpuProg) : List CopyBackStmt :=
  prog.arrays.filterMap (fun array =>
    if !prog.copy_out.nonempty_on array.name then none
    else some (ppcg_print_guarded (is_array_positive_size_guard_trivial array)
      prog.context (copy_array_from_device array)))

/-- Embedding of opencl_declare_device_arrays (opencl.c:147-164): the names
of the arrays for which a cl_mem dev_ declaration is emitted, in order;
read-only scalars are skipped. -/
def opencl_declare_device_arrays (prog : GpuProg) : List String :=
  prog.arrays.filterMap (fun a =>
    if gpu_array_is_read_only_scalar a then none else some a.name)

/-- Embedding of opencl_release_device_arrays (opencl.c:1062-1075): the
names of the arrays for which a clReleaseMemObject statement is emitted,
in order; read-only scalars are skipped. -/
def opencl_release_device_arrays (prog : GpuProg) : List String :=
  prog.arrays.filterMap (fun a =>
    if gpu_array_is_read_only_scalar a then none else some a.name)

/-- Which of the three fopen calls of opencl_open_files succeed. -/
structure OpenOutcome where
  host_c_ok : Bool
  kernel_c_ok : Bool
  kernel_h_ok : Bool
deriving DecidableEq, Repr

/-- Embedding of the success test of opencl_open_files (opencl.c:93): the
condition tests info->host_c twice and never tests info->kernel_h, so the
result is -1 only when host_c or kernel_c is unopened. -/
def opencl_open_files (o : OpenOutcome) : Int :=
  if !o.host_c_ok || !o.kernel_c_ok || !o.host_c_ok then -1 else 0

/-- The three output files of the backend. -/
inductive OutFile where
  | host_c
  | kernel_c
  | kernel_h
deriving DecidableEq, Repr

/-- Embedding of opencl_close_files (opencl.c:118-126): each file that was
opened is closed, in the order kernel_c, kernel_h, host_c. -/
def opencl_close_files (o : OpenOutcome) : List OutFile :=
  (if o.kernel_c_ok then [OutFile.kernel_c] else [])
    ++ (if o.kernel_h_ok then [OutFile.kernel_h] else [])
    ++ (if o.host_c_ok then [OutFile.host_c] else [])

/-- Embedding of generate_opencl (opencl.c:1129-1144): generate_gpu is
invoked exactly when opencl_open_files did not report failure, and the
files are closed afterwards in any case.  The first component tells
whether generate_gpu was invoked, the second lists the closed files. -/
def generate_opencl (o : OpenOutcome) : Bool × List OutFile :=
  (decide (0 ≤ opencl_open_files o), opencl_close_files o)

/-- Concrete program with no arrays, used for degenerate launch sites. -/
def prog3 : GpuProg :=
  { ctx := { ast_iterator_type := "int" }
    arrays := []
    copy_in := { nonempty_on := fun _ => false, param_names := [] }
    copy_out := { nonempty_on := fun _ => false, param_names := [] }
    context := "" }

/-- Concrete kernel with an empty block size vector and the one grid bound
10. -/
def kernel3 : PpcgKernel :=
  { id := 0
    block_dim := []
    grid_size := ["10"]
    arrays := { nonempty_on := fun _ => false, param_names := [] }
    space_set_dim_names := [] }

/-- Concrete kernel with one block dimension and two grid dimensions. -/
def kernel4 : PpcgKernel :=
  { id := 1
    block_dim := [8]
    grid_size := ["10", "5"]
    arrays := { nonempty_on := fun _ => false, param_names := [] }
    space_set_dim_names := [] }

/-- Concrete kernel with empty block and grid size vectors. -/
def kdeg : PpcgKernel :=
  { id := 2
    block_dim := []
    grid_size := []
    arrays := { nonempty_on := fun _ => false, param_names := [] }
    space_set_dim_names := [] }

/-- Concrete kernel with block sizes 8,4 and grid bounds 10,5. -/
def kpos : PpcgKernel :=
  { id := 3
    block_dim := [8, 4]
    grid_size := ["10", "5"]
    arrays := { nonempty_on := fun _ => false, param_names := [] }
    space_set_dim_names := [] }

/-- Concrete non-scalar array with a non-trivial positive size guard. -/
def arrA : GpuArrayInfo :=
  { name := "A"
    type := "float"
    n_index := 2
    read_only := false
    positive_size_guard_is_universe := false
    size := "(N) * (N) * sizeof(float)" }

/-- Concrete non-scalar array with a trivial positive size guard. -/
def arrB : GpuArrayInfo :=
  { name := "B"
    type := "int"
    n_index := 1
    read_only := false
    positive_size_guard_is_universe := true
    size := "(100) * sizeof(int)" }

/-- Concrete read-only scalar array. -/
def scalS : GpuArrayInfo :=
  { name := "s"
    type := "int"
    n_index := 0
    read_only := true
    positive_size_guard_is_universe := true
    size := "sizeof(int)" }

/-- Concrete program holding arrA, arrB and scalS: arrA and scalS are read
somewhere, only arrA is written. -/
def progT : GpuProg :=
  { ctx := { ast_iterator_type := "long" }
    arrays := [arrA, arrB, scalS]
    copy_in := { nonempty_on := fun n => n == "A" || n == "s", param_names := [] }
    copy_out := { nonempty_on := fun n => n == "A", param_names := [] }
    context := "N >= 0" }

/-- Concrete kernel accessing arrA and scalS, one parameter N and one host
iterator h0. -/
def kernT : PpcgKernel :=
  { id := 0
    block_dim := [8, 4]
    grid_size := ["10", "5"]
    arrays := { nonempty_on := fun n => n == "A" || n == "s", param_names := ["N"] }
    space_set_dim_names := ["h0"] }

/-- Concrete program whose single parametric array is neither read nor
written by the program footprints. -/
def progW : GpuProg :=
  { ctx := { ast_iterator_type := "int" }
    arrays := [arrA]
    copy_in := { nonempty_on := fun _ => false, param_names := [] }
    copy_out := { nonempty_on := fun _ => false, param_names := [] }
    context := "N >= 0" }

/-- Concrete program whose single array is a read-only scalar with a
non-empty read footprint. -/
def prog6 : GpuProg :=
  { ctx := { ast_iterator_type := "int" }
    arrays := [scalS]
    copy_in := { nonempty_on := fun n => n == "s", param_names := [] }
    copy_out := { nonempty_on := fun _ => false, param_names := [] }
    context := "" }

/-- Concrete program and kernel for the declaration type counterexample:
the configured iterator type is long and the kernel has one parameter. -/
def kernel9 : PpcgKernel :=
  { id := 9
    block_dim := [8]
    grid_size := ["10"]
    arrays := { nonempty_on := fun _ => false, param_names := ["N"] }
    space_set_dim_names := [] }

/-- Helper: the argument identities bound by the running counter are the
first components of the pending list. -/
theorem set_args_from_map_arg (kid : Int) (k : Nat) (l : List (KernelArgId × Bool)) :
    (set_args_from kid k l).map SetKernelArgStmt.arg = l.map Prod.fst := by
  induction l generalizing k with
  | nil => rfl
  | cons x xs ih => simp [set_args_from, opencl_set_kernel_argument, ih]

/-- Helper: the indices bound by the running counter are consecutive from
its start value. -/
theorem set_args_from_map_index (kid : Int) (k : Nat) (l : List (KernelArgId × Bool)) :
    (set_args_from kid k l).map SetKernelArgStmt.arg_index = List.range' k l.length := by
  induction l generalizing k with
  | nil => rfl
  | cons x xs ih => simp [set_args_from, opencl_set_kernel_argument, ih, List.range'_succ]

/-- Helper: one binding statement per pending argument. -/
theorem set_args_from_length (kid : Int) (k : Nat) (l : List (KernelArgId × Bool)) :
    (set_args_from kid k l).length = l.length := by
  induction l generalizing k with
  | nil => rfl
  | cons x xs ih => simp [set_args_from, ih]

/-- Helper: every binding statement emitted by the running counter comes
from some pending argument. -/
theorem mem_set_args_from {kid : Int} {k : Nat} {l : List (KernelArgId × Bool)}
    {s : SetKernelArgStmt} (hs : s ∈ set_args_from kid k l) :
    ∃ x ∈ l, ∃ j, s = opencl_set_kernel_argument kid x.1 j x.2 := by
  induction l generalizing k with
  | nil => simp [set_args_from] at hs
  | cons x xs ih =>
    simp only [set_args_from, List.mem_cons] at hs
    rcases hs with rfl | hs
    · exact ⟨x, by simp, k, rfl⟩
    · rcases ih hs with ⟨y, hy, j, rfl⟩
      exact ⟨y, by simp [hy], j, rfl⟩

/-- Claim C1: for every kernel, the declaration path, the call path and the
binding path produce argument sequences of identical length with the same
array, parameter or iterator identity at every position; the order is the
accessed arrays in program order, then the parameters of the kernel
footprint space, then the host loop iterators; and the binding statement at
position k binds index k. -/
theorem c1_kernel_argument_paths_agree (prog : GpuProg) (kernel : PpcgKernel) :
    (opencl_print_kernel_arguments prog kernel true).map PrintedKernelArg.argId
        = (opencl_set_kernel_arguments prog kernel).map SetKernelArgStmt.arg
  ∧ (opencl_print_kernel_arguments prog kernel false).map PrintedKernelArg.argId
        = (opencl_set_kernel_arguments prog kernel).map SetKernelArgStmt.arg
  ∧ (opencl_set_kernel_arguments prog kernel).map SetKernelArgStmt.arg
        = (kernel_accessed_arrays prog kernel).map (fun a => KernelArgId.array a.name)
          ++ kernel.arrays.param_names.map KernelArgId.param
          ++ kernel.space_set_dim_names.map KernelArgId.iterator
  ∧ (opencl_set_kernel_arguments prog kernel).map SetKernelArgStmt.arg_index
        = List.range (opencl_set_kernel_arguments prog kernel).length := by
  refine ⟨?_, ?_, ?_, ?_⟩
  · simp [opencl_print_kernel_arguments, opencl_set_kernel_arguments,
      set_args_from_map_arg, PrintedKernelArg.argId,
      gpu_array_info_print_declaration_argument, Function.comp_def]
  · simp [opencl_print_kernel_arguments, opencl_set_kernel_arguments,
      set_args_from_map_arg, PrintedKernelArg.argId,
      gpu_array_info_print_call_argument, Function.comp_def]
  · simp [opencl_set_kernel_arguments, set_args_from_map_arg, Function.comp_def]
  · simp [opencl_set_kernel_arguments, set_args_from_map_index,
      set_args_from_length, List.range_eq_range']

/-- Claim C2: per dimension i in 0..max(B,G)-1, the total work items list
holds the parenthesized grid bound times the block size when i < min(B,G),
the block size alone when i >= G, and the grid bound alone when i >= B;
when G = 0 or B = 0 the whole list is the single literal 1. -/
theorem c2_total_work_items_per_dim (kernel : PpcgKernel) :
    ((kernel.grid_size.length = 0 ∨ kernel.block_dim.length = 0) →
      opencl_print_total_number_of_work_items_as_list kernel = ["1"])
  ∧ (0 < kernel.grid_size.length → 0 < kernel.block_dim.length →
      (opencl_print_total_number_of_work_items_as_list kernel).length
          = max kernel.grid_size.length kernel.block_dim.length
      ∧ ∀ i, i < max kernel.grid_size.length kernel.block_dim.length →
          (i < min kernel.grid_size.length kernel.block_dim.length →
            (opencl_print_total_number_of_work_items_as_list kernel).getD i ""
              = "(" ++ kernel.grid_size.getD i "" ++ ") * "
                  ++ toString (kernel.block_dim.getD i 0))
          ∧ (kernel.grid_size.length ≤ i →
            (opencl_print_total_number_of_work_items_as_list kernel).getD i ""
              = toString (kernel.block_dim.getD i 0))
          ∧ (kernel.block_dim.length ≤ i →
            (opencl_print_total_number_of_work_items_as_list kernel).getD i ""
              = kernel.grid_size.getD i "")) := by
  constructor
  · intro h
    unfold opencl_print_total_number_of_work_items_as_list
    rw [if_pos h]
  · intro hG hB
    have hcond : ¬(kernel.grid_size.length = 0 ∨ kernel.block_dim.length = 0) := by omega
    constructor
    · unfold opencl_print_total_number_of_work_items_as_list
      rw [if_neg hcond]
      simp
    · intro i hi
      have hget : (opencl_print_total_number_of_work_items_as_list kernel).getD i ""
          = opencl_print_total_number_of_work_items_for_dim kernel i := by
        unfold opencl_print_total_number_of_work_items_as_list
        rw [if_neg hcond, List.getD_eq_getElem?_getD, List.getElem?_map,
          List.getElem?_range hi]
        rfl
      refine ⟨?_, ?_, ?_⟩
      · intro hmin
        rw [hget]
        simp [opencl_print_total_number_of_work_items_for_dim, hmin]
      · intro hGe
        have hmin : ¬ i < min kernel.grid_size.length kernel.block_dim.length := by omega
        rw [hget]
        simp [opencl_print_total_number_of_work_items_for_dim, hmin, hGe]
      · intro hBe
        have hmin : ¬ i < min kernel.grid_size.length kernel.block_dim.length := by omega
        have hGe : ¬ kernel.grid_size.length ≤ i := by omega
        rw [hget]
        simp [opencl_print_total_number_of_work_items_for_dim, hmin, hGe]

/-- Witness for claim C2 at the degenerate kernel and at the kernel with
block sizes 8,4 and grid bounds 10,5. -/
theorem c2_total_work_items_per_dim_witness :
    opencl_print_total_number_of_work_items_as_list kdeg = ["1"]
  ∧ (opencl_print_total_number_of_work_items_as_list kpos).length = 2
  ∧ (opencl_print_total_number_of_work_items_as_list kpos).getD 0 "" = "(10) * 8" := by
  refine ⟨(c2_total_work_items_per_dim kdeg).1 (Or.inl rfl), ?_, ?_⟩
  · have h := ((c2_total_work_items_per_dim kpos).2 (by decide) (by decide)).1
    rw [h]
    decide
  · have h := ((((c2_total_work_items_per_dim kpos).2 (by decide) (by decide)).2
      0 (by decide)).1) (by decide)
    rw [h]
    decide

/-- Claim C3 counterexample: for the kernel with empty block size vector
and the single grid bound 10, the emitted total work items list is not the
claimed list holding just the grid bound 10. -/
theorem c3_degenerate_block_counterexample :
    ¬ opencl_print_total_number_of_work_items_as_list kernel3 = ["10"] := by
  decide

/-- Claim C3 amended: for the kernel with empty block size vector and the
single grid bound 10, the emitted total work items list is the single
literal 1, and the global_work_size and block_size arrays both have
declared length 1 and one initializer element each. -/
theorem c3_degenerate_block_amended :
    opencl_print_total_number_of_work_items_as_list kernel3 = ["1"]
  ∧ (opencl_print_host_user prog3 kernel3).global_work_size_len = 1
  ∧ (opencl_print_host_user prog3 kernel3).block_size_len = 1
  ∧ (opencl_print_host_user prog3 kernel3).global_work_size_init.length = 1
  ∧ (opencl_print_host_user prog3 kernel3).block_size_init.length = 1 := by
  decide

/-- Helper: length of the total work items list. -/
theorem total_work_items_length (kernel : PpcgKernel) :
    (opencl_print_total_number_of_work_items_as_list kernel).length
      = if kernel.grid_size.length = 0 ∨ kernel.block_dim.length = 0 then 1
        else max kernel.grid_size.length kernel.block_dim.length := by
  unfold opencl_print_total_number_of_work_items_as_list
  split
  · rfl
  · simp

/-- Claim C4 counterexample: for the kernel with one block dimension and
two grid dimensions, the emitted global_work_size initializer has two
elements while the declared array length is one. -/
theorem c4_initializer_count_counterexample :
    ¬ (opencl_print_host_user prog3 kernel4).global_work_size_init.length
        = (opencl_print_host_user prog3 kernel4).global_work_size_len := by
  decide

/-- Claim C4 amended: both launch arrays are declared with length max(B,1),
which is also the work dimensionality passed to the launch call; the
block_size initializer holds the block sizes (the literal 1 when B = 0) and
always has exactly max(B,1) elements; the global_work_size initializer is
the total work items list, whose element count is max(B,G) when both B and
G are positive and 1 otherwise, so it can differ from the declared length
when G exceeds B. -/
theorem c4_launch_parameters (prog : GpuProg) (kernel : PpcgKernel) :
    (opencl_print_host_user prog kernel).global_work_size_len
        = max kernel.block_dim.length 1
  ∧ (opencl_print_host_user prog kernel).block_size_len
        = max kernel.block_dim.length 1
  ∧ (opencl_print_host_user prog kernel).work_dim
        = max kernel.block_dim.length 1
  ∧ (opencl_print_host_user prog kernel).block_size_init
        = (if 0 < kernel.block_dim.length then kernel.block_dim.map toString else ["1"])
  ∧ (opencl_print_host_user prog kernel).block_size_init.length
        = max kernel.block_dim.length 1
  ∧ (opencl_print_host_user prog kernel).global_work_size_init
        = opencl_print_total_number_of_work_items_as_list kernel
  ∧ (opencl_print_host_user prog kernel).global_work_size_init.length
        = (if kernel.grid_size.length = 0 ∨ kernel.block_dim.length = 0 then 1
           else max kernel.grid_size.length kernel.block_dim.length) := by
  refine ⟨?_, ?_, ?_, rfl, ?_, rfl, ?_⟩
  · simp only [opencl_print_host_user]
    split <;> omega
  · simp only [opencl_print_host_user]
    split <;> omega
  · simp only [opencl_print_host_user]
    split <;> omega
  · simp only [opencl_print_host_user, opencl_print_block_sizes]
    split <;> simp <;> omega
  · exact total_work_items_length kernel

/-- Claim C5: evaluation of the file opening logic at the failing input
where only the kernel header file fails to open: opencl_open_files reports
success, generate_gpu is invoked, and the opened files are closed; by
contrast a host or kernel source failure is reported. -/
theorem c5_open_failure_check :
    opencl_open_files { host_c_ok := true, kernel_c_ok := true, kernel_h_ok := false } = 0
  ∧ (generate_opencl { host_c_ok := true, kernel_c_ok := true, kernel_h_ok := false }).1 = true
  ∧ (generate_opencl { host_c_ok := true, kernel_c_ok := true, kernel_h_ok := false }).2
      = [OutFile.kernel_c, OutFile.host_c]
  ∧ opencl_open_files { host_c_ok := false, kernel_c_ok := true, kernel_h_ok := true } = -1
  ∧ (generate_opencl { host_c_ok := false, kernel_c_ok := true, kernel_h_ok := true }).1 = false
  ∧ opencl_open_files { host_c_ok := true, kernel_c_ok := false, kernel_h_ok := true } = -1 := by
  decide

/-- Helper: every emitted allocation comes from a program array that is not
a read-only scalar, with the copy flag given by the read footprint. -/
theorem alloc_stmt_shape {prog : GpuProg} {s : AllocStmt}
    (hs : s ∈ opencl_allocate_device_arrays prog) :
    ∃ b ∈ prog.arrays, gpu_array_is_read_only_scalar b = false ∧
      s = allocate_device_array b (prog.copy_in.nonempty_on b.name) := by
  simp only [opencl_allocate_device_arrays, List.mem_filterMap] at hs
  rcases hs with ⟨b, hb, hfb⟩
  cases hrob : gpu_array_is_read_only_scalar b with
  | true => rw [if_pos hrob] at hfb; cases hfb
  | false =>
    rw [if_neg (by simp [hrob])] at hfb
    exact ⟨b, hb, hrob, (Option.some.inj hfb).symm⟩

/-- Helper: every emitted copy-back comes from a program array whose write
footprint intersection is non-empty, wrapped via ppcg_print_guarded. -/
theorem copy_back_shape {prog : GpuProg} {c : CopyBackStmt}
    (hc : c ∈ opencl_copy_arrays_from_device prog) :
    ∃ b ∈ prog.arrays, prog.copy_out.nonempty_on b.name = true ∧
      c = ppcg_print_guarded (is_array_positive_size_guard_trivial b) prog.context
            (copy_array_from_device b) := by
  simp only [opencl_copy_arrays_from_device, List.mem_filterMap] at hc
  rcases hc with ⟨b, hb, hfb⟩
  cases hob : prog.copy_out.nonempty_on b.name with
  | false => rw [if_pos (by simp [hob])] at hfb; cases hfb
  | true =>
    rw [if_neg (by simp [hob])] at hfb
    exact ⟨b, hb, hob, (Option.some.inj hfb).symm⟩

/-- Claim C6 counterexample: the single array of prog6 is a read-only
scalar with a non-empty read footprint intersection, yet no buffer
allocation at all is emitted for it, so it does not get the host data
pointer as a copy source. -/
theorem c6_read_only_scalar_counterexample :
    prog6.copy_in.nonempty_on "s" = true
  ∧ opencl_allocate_device_arrays prog6 = [] := by
  decide

/-- Claim C6 amended: no copy-back is emitted for an array whose write
footprint intersection is empty; and for every array that is not a
read-only scalar, an empty read footprint intersection yields an
allocation with a NULL host pointer and without the copy flag, while a
non-empty one yields an allocation whose copy source is the host data
pointer, or its address for scalars. -/
theorem c6_footprints_drive_copies (prog : GpuProg) :
    (∀ a ∈ prog.arrays, prog.copy_out.nonempty_on a.name = false →
        ∀ c ∈ opencl_copy_arrays_from_device prog, c.array_name ≠ a.name)
  ∧ (∀ a ∈ prog.arrays, gpu_array_is_read_only_scalar a = false →
      (prog.copy_in.nonempty_on a.name = false →
        ∃ s ∈ opencl_allocate_device_arrays prog, s.array_name = a.name
          ∧ s.host_ptr_arg = "NULL" ∧ s.mem_flags = ["CL_MEM_READ_WRITE"])
      ∧ (prog.copy_in.nonempty_on a.name = true →
        ∃ s ∈ opencl_allocate_device_arrays prog, s.array_name = a.name
          ∧ s.host_ptr_arg = (if gpu_array_is_scalar a then "&" ++ a.name else a.name)
          ∧ s.mem_flags = ["CL_MEM_READ_WRITE", "CL_MEM_COPY_HOST_PTR"])) := by
  constructor
  · intro a _ hout c hc heq
    obtain ⟨b, _, hob, rfl⟩ := copy_back_shape hc
    have hbn : b.name = a.name := heq
    rw [hbn] at hob
    rw [hout] at hob
    cases hob
  · intro a ha hro
    constructor
    · intro hin
      refine ⟨allocate_device_array a false, ?_, rfl, rfl, rfl⟩
      simp only [opencl_allocate_device_arrays, List.mem_filterMap]
      exact ⟨a, ha, by simp [hro, hin]⟩
    · intro hin
      refine ⟨allocate_device_array a true, ?_, rfl, ?_, rfl⟩
      · simp only [opencl_allocate_device_arrays, List.mem_filterMap]
        exact ⟨a, ha, by simp [hro, hin]⟩
      · simp [allocate_device_array]

/-- Witness for claim C6 at progW: its array has empty read and write
footprint intersections, so no copy-back is emitted for it and its
allocation has a NULL host pointer. -/
theorem c6_footprints_drive_copies_witness :
    (∀ c ∈ opencl_copy_arrays_from_device progW, c.array_name ≠ arrA.name)
  ∧ ∃ s ∈ opencl_allocate_device_arrays progW, s.array_name = arrA.name
      ∧ s.host_ptr_arg = "NULL" ∧ s.mem_flags = ["CL_MEM_READ_WRITE"] := by
  have h := c6_footprints_drive_copies progW
  exact ⟨h.1 arrA (by decide) (by decide),
    (h.2 arrA (by decide) (by decide)).1 (by decide)⟩

/-- Claim C7: for an array whose positive size guard is trivially the
universe, the allocation size is printed without a lower bound and its
copy-back is unguarded; for an array with a non-trivial guard, the
allocation size is wrapped as max(sizeof(type), size) and its copy-back is
wrapped in the guard under the program parameter context. -/
theorem c7_positive_size_guard (prog : GpuProg)
    (hnodup : (prog.arrays.map GpuArrayInfo.name).Nodup)
    (a : GpuArrayInfo) (ha : a ∈ prog.arrays) :
    (is_array_positive_size_guard_trivial a = true →
        (∀ s ∈ opencl_allocate_device_arrays prog, s.array_name = a.name →
            s.size_arg = a.size)
      ∧ (∀ c ∈ opencl_copy_arrays_from_device prog, c.array_name = a.name →
            c.guarded = false))
  ∧ (is_array_positive_size_guard_trivial a = false →
        (∀ s ∈ opencl_allocate_device_arrays prog, s.array_name = a.name →
            s.size_arg = "max(sizeof(" ++ a.type ++ "), " ++ a.size ++ ")")
      ∧ (∀ c ∈ opencl_copy_arrays_from_device prog, c.array_name = a.name →
            c.guarded = true ∧ c.guard_context = prog.context)) := by
  have halloc : ∀ s ∈ opencl_allocate_device_arrays prog, s.array_name = a.name →
      s = allocate_device_array a (prog.copy_in.nonempty_on a.name) := by
    intro s hs hname
    obtain ⟨b, hb, _, rfl⟩ := alloc_stmt_shape hs
    have hbn : b.name = a.name := hname
    have hba : b = a := List.inj_on_of_nodup_map hnodup hb ha hbn
    rw [hba]
  have hcopy : ∀ c ∈ opencl_copy_arrays_from_device prog, c.array_name = a.name →
      c = ppcg_print_guarded (is_array_positive_size_guard_trivial a) prog.context
            (copy_array_from_device a) := by
    intro c hc hname
    obtain ⟨b, hb, _, rfl⟩ := copy_back_shape hc
    have hbn : b.name = a.name := hname
    have hba : b = a := List.inj_on_of_nodup_map hnodup hb ha hbn
    rw [hba]
  constructor
  · intro htriv
    refine ⟨fun s hs hname => ?_, fun c hc hname => ?_⟩
    · rw [halloc s hs hname]
      simp [allocate_device_array, htriv]
    · rw [hcopy c hc hname]
      simp [ppcg_print_guarded, htriv]
  · intro htriv
    refine ⟨fun s hs hname => ?_, fun c hc hname => ?_⟩
    · rw [halloc s hs hname]
      simp [allocate_device_array, htriv]
    · rw [hcopy c hc hname]
      simp [ppcg_print_guarded, htriv]

/-- Witness for claim C7 at progT: the trivially guarded array B gets an
unguarded size, the non-trivially guarded array A gets a guarded copy-back
under the program context. -/
theorem c7_positive_size_guard_witness :
    (∀ s ∈ opencl_allocate_device_arrays progT, s.array_name = arrB.name →
        s.size_arg = arrB.size)
  ∧ (∀ c ∈ opencl_copy_arrays_from_device progT, c.array_name = arrA.name →
        c.guarded = true ∧ c.guard_context = progT.context) := by
  exact ⟨((c7_positive_size_guard progT (by decide) arrB (by decide)).1 (by decide)).1,
    ((c7_positive_size_guard progT (by decide) arrA (by decide)).2 (by decide)).2⟩

/-- Claim C8: a read-only scalar array never gets a device buffer
declaration, allocation or release, and every binding statement for it
passes sizeof of the host variable and the address of the host variable. -/
theorem c8_read_only_scalars (prog : GpuProg) (kernel : PpcgKernel)
    (hnodup : (prog.arrays.map GpuArrayInfo.name).Nodup)
    (a : GpuArrayInfo) (ha : a ∈ prog.arrays)
    (hro : gpu_array_is_read_only_scalar a = true) :
    a.name ∉ opencl_declare_device_arrays prog
  ∧ (∀ s ∈ opencl_allocate_device_arrays prog, s.array_name ≠ a.name)
  ∧ a.name ∉ opencl_release_device_arrays prog
  ∧ ∀ s ∈ opencl_set_kernel_arguments prog kernel, s.arg = KernelArgId.array a.name →
      s.read_only_scalar = true ∧ s.sizeof_arg = a.name ∧ s.value_arg = "&" ++ a.name := by
  have hname_ro : ∀ b ∈ prog.arrays, b.name = a.name →
      gpu_array_is_read_only_scalar b = true := by
    intro b hb hbn
    rw [List.inj_on_of_nodup_map hnodup hb ha hbn]
    exact hro
  refine ⟨?_, ?_, ?_, ?_⟩
  · intro hmem
    simp only [opencl_declare_device_arrays, List.mem_filterMap] at hmem
    rcases hmem with ⟨b, hb, hfb⟩
    cases hrob : gpu_array_is_read_only_scalar b with
    | true => rw [if_pos hrob] at hfb; cases hfb
    | false =>
      rw [if_neg (by simp [hrob])] at hfb
      rw [hname_ro b hb (Option.some.inj hfb)] at hrob
      cases hrob
  · intro s hs heq
    obtain ⟨b, hb, hrob, rfl⟩ := alloc_stmt_shape hs
    rw [hname_ro b hb heq] at hrob
    cases hrob
  · intro hmem
    simp only [opencl_release_device_arrays, List.mem_filterMap] at hmem
    rcases hmem with ⟨b, hb, hfb⟩
    cases hrob : gpu_array_is_read_only_scalar b with
    | true => rw [if_pos hrob] at hfb; cases hfb
    | false =>
      rw [if_neg (by simp [hrob])] at hfb
      rw [hname_ro b hb (Option.some.inj hfb)] at hrob
      cases hrob
  · intro s hs heq
    simp only [opencl_set_kernel_arguments] at hs
    obtain ⟨x, hx, j, rfl⟩ := mem_set_args_from hs
    have harg : x.1 = KernelArgId.array a.name := heq
    simp only [List.mem_append, List.mem_map] at hx
    rcases hx with (⟨b, hb, rfl⟩ | ⟨n, _, rfl⟩) | ⟨n, _, rfl⟩
    · have hbn : b.name = a.name := by
        simpa using congrArg KernelArgId.name harg
      have hb2 : b ∈ prog.arrays := (List.mem_filter.mp hb).1
      have hrob := hname_ro b hb2 hbn
      refine ⟨hrob, ?_, ?_⟩ <;>
        simp [opencl_set_kernel_argument, hrob, KernelArgId.name, hbn]
    · cases harg
    · cases harg

/-- Witness for claim C8 at progT and kernT with the read-only scalar s. -/
theorem c8_read_only_scalars_witness :
    scalS.name ∉ opencl_declare_device_arrays progT
  ∧ (∀ s ∈ opencl_allocate_device_arrays progT, s.array_name ≠ scalS.name)
  ∧ scalS.name ∉ opencl_release_device_arrays progT
  ∧ ∀ s ∈ opencl_set_kernel_arguments progT kernT, s.arg = KernelArgId.array scalS.name →
      s.read_only_scalar = true ∧ s.sizeof_arg = scalS.name
        ∧ s.value_arg = "&" ++ scalS.name := by
  exact c8_read_only_scalars progT kernT (by decide) scalS (by decide) (by decide)

/-- Claim C9 counterexample: with the configured iterator type long, the
parameter argument of a kernel declaration is still annotated with the
fixed type int (opencl.c:421), not with the configured iterator type. -/
theorem c9_param_type_counterexample :
    isl_options_get_ast_iterator_type progT.ctx = "long"
  ∧ PrintedKernelArg.paramArg (some "int") "N"
      ∈ opencl_print_kernel_arguments progT kernel9 true
  ∧ (some "int" : Option String) ≠ some "long" := by
  decide

/-- Claim C9 amended: in a kernel declaration every array argument carries
the global address space qualifier and the element type of an accessed
array, every host iterator argument carries the configured iterator type,
and every parameter argument carries the fixed type int, not the
configured iterator type. -/
theorem c9_declaration_types (prog : GpuProg) (kernel : PpcgKernel) :
    (∀ q t n, PrintedKernelArg.arrayDecl q t n
        ∈ opencl_print_kernel_arguments prog kernel true →
      q = "__global" ∧ ∃ a ∈ kernel_accessed_arrays prog kernel, a.name = n ∧ a.type = t)
  ∧ (∀ t n, PrintedKernelArg.paramArg t n
        ∈ opencl_print_kernel_arguments prog kernel true → t = some "int")
  ∧ (∀ t n, PrintedKernelArg.iterArg t n
        ∈ opencl_print_kernel_arguments prog kernel true →
      t = some (isl_options_get_ast_iterator_type prog.ctx)) := by
  refine ⟨?_, ?_, ?_⟩
  · intro q t n hmem
    simp only [opencl_print_kernel_arguments, if_true, List.mem_append,
      List.mem_map, gpu_array_info_print_declaration_argument] at hmem
    rcases hmem with (⟨a, ha, heq⟩ | ⟨n', _, heq⟩) | ⟨n', _, heq⟩
    · obtain ⟨rfl, rfl, rfl⟩ := PrintedKernelArg.arrayDecl.inj heq
      exact ⟨rfl, a, ha, rfl, rfl⟩
    · cases heq
    · cases heq
  · intro t n hmem
    simp only [opencl_print_kernel_arguments, if_true, List.mem_append,
      List.mem_map, gpu_array_info_print_declaration_argument] at hmem
    rcases hmem with (⟨a, _, heq⟩ | ⟨n', _, heq⟩) | ⟨n', _, heq⟩
    · cases heq
    · exact (PrintedKernelArg.paramArg.inj heq).1.symm
    · cases heq
  · intro t n hmem
    simp only [opencl_print_kernel_arguments, if_true, List.mem_append,
      List.mem_map, gpu_array_info_print_declaration_argument] at hmem
    rcases hmem with (⟨a, _, heq⟩ | ⟨n', _, heq⟩) | ⟨n', _, heq⟩
    · cases heq
    · cases heq
    · exact (PrintedKernelArg.iterArg.inj heq).1.symm

/-- Witness for claim C9 at progT and kernT: the array A is declared with
the global qualifier and its element type, and the iterator argument
carries the configured type long. -/
theorem c9_declaration_types_witness :
    ("__global" = "__global"
      ∧ ∃ a ∈ kernel_accessed_arrays progT kernT, a.name = "A" ∧ a.type = "float")
  ∧ some "long" = some (isl_options_get_ast_iterator_type progT.ctx) := by
  exact ⟨(c9_declaration_types progT kernT).1 "__global" "float" "A" (by decide),
    (c9_declaration_types progT kernT).2.2 (some "long") "h0" (by decide)⟩

/-- Claim C10: every emitted buffer allocation for every non read-only
scalar array uses the read-write memory flag first, and the footprints
only ever add the copy-host-pointer flag after it, never change the
access mode. -/
theorem c10_read_write_flag (prog : GpuProg) :
    (∀ a ∈ prog.arrays, gpu_array_is_read_only_scalar a = false →
        ∃ s ∈ opencl_allocate_device_arrays prog, s.array_name = a.name
          ∧ s.mem_flags.head? = some "CL_MEM_READ_WRITE")
  ∧ ∀ s ∈ opencl_allocate_device_arrays prog,
      s.mem_flags.head? = some "CL_MEM_READ_WRITE"
      ∧ (s.mem_flags = ["CL_MEM_READ_WRITE"]
         ∨ s.mem_flags = ["CL_MEM_READ_WRITE", "CL_MEM_COPY_HOST_PTR"]) := by
  constructor
  · intro a ha hro
    refine ⟨allocate_device_array a (prog.copy_in.nonempty_on a.name), ?_, rfl, ?_⟩
    · simp only [opencl_allocate_device_arrays, List.mem_filterMap]
      exact ⟨a, ha, by simp [hro]⟩
    · cases prog.copy_in.nonempty_on a.name <;> simp [allocate_device_array]
  · intro s hs
    obtain ⟨b, _, _, rfl⟩ := alloc_stmt_shape hs
    cases prog.copy_in.nonempty_on b.name <;> simp [allocate_device_array]

/-- Witness for claim C10 at progT with the array A. -/
theorem c10_read_write_flag_witness :
    ∃ s ∈ opencl_allocate_device_arrays progT, s.array_name = arrA.name
      ∧ s.mem_flags.head? = some "CL_MEM_READ_WRITE" := by
  exact (c10_read_write_flag progT).1 arrA (by decide) (by decide)
